import Mathlib

/-!
Verification of the EKS add-on resource lifecycle (internal/service/eks/addon.go).

The Go functions resourceAddonCreate, resourceAddonRead, resourceAddonUpdate and
resourceAddonDelete are embedded as pure Lean functions.  The remote API client,
the waiters and the remote state reader are parameters (environments) supplying
the outcome of each remote call; the functions under verification are the
orchestration logic translated from the source.  Helpers of the repository that
are not part of the given source file (the identifier codec and the bounded
retry combinator tfresource.RetryWhen) are modelled from the specification and
marked as such in their doc comments.
-/

namespace EksAddon

/-- Whether the second character list begins with the first one. -/
def listStartsWith : List Char → List Char → Bool
  | [], _ => true
  | _ :: _, [] => false
  | p :: ps, s :: ss => p == s && listStartsWith ps ss

/-- Whether the needle occurs as a contiguous run inside the character list. -/
def containsChars (needle : List Char) : List Char → Bool
  | [] => listStartsWith needle []
  | c :: cs => listStartsWith needle (c :: cs) || containsChars needle cs

/-- Embedding of strings.Contains from the Go standard library: strContains s pat
is true when pat occurs as a substring of s. -/
def strContains (s pat : String) : Bool := containsChars pat.data s.data

/-- Error classes of the remote API as seen by addon.go: the Go code distinguishes
types.InvalidParameterException and types.ResourceNotFoundException from all other
errors, and reads err.Error() as the message. -/
inductive AwsError where
  | invalidParameter (msg : String)
  | resourceNotFound (msg : String)
  | other (msg : String)
deriving DecidableEq

/-- The Go err.Error() text of an error. -/
def errMessage : AwsError → String
  | AwsError.invalidParameter m => m
  | AwsError.resourceNotFound m => m
  | AwsError.other m => m

/-- Embedding of errs.IsA for types.InvalidParameterException. -/
def isInvalidParameterError : AwsError → Bool
  | AwsError.invalidParameter _ => true
  | _ => false

/-- Embedding of errs.IsA for types.ResourceNotFoundException applied to the
error component of a call result; false when the call succeeded. -/
def isNotFoundError {α : Type} : Except AwsError α → Bool
  | Except.error (AwsError.resourceNotFound _) => true
  | _ => false

/-- Diagnostic severity of the plugin SDK diag package. -/
inductive Severity where
  | error
  | warning
deriving DecidableEq

/-- One entry of the diag.Diagnostics returned by a resource operation. -/
structure Diagnostic where
  severity : Severity
  summary : String
deriving DecidableEq

/-- The view of schema.ResourceData used by addon.go during one operation: the
current (planned) value of every schema attribute, the prior state snapshot of
the three attributes tested with HasChange, the resource identifier set by
SetId, and the IsNewResource flag.  An absent optional string attribute is the
empty string, matching the Go zero value tested by GetOk. -/
structure ResourceData where
  id : String
  isNewResource : Bool
  addonName : String
  clusterName : String
  addonVersion : String
  configurationValues : String
  resolveConflicts : String
  resolveConflictsOnCreate : String
  resolveConflictsOnUpdate : String
  serviceAccountRoleArn : String
  preserve : Bool
  arn : String
  createdAt : String
  modifiedAt : String
  oldAddonVersion : String
  oldConfigurationValues : String
  oldServiceAccountRoleArn : String
deriving DecidableEq

/-- The remote representation of an add-on returned by the remote state reader. -/
structure Addon where
  addonName : String
  addonVersion : String
  arn : String
  clusterName : String
  configurationValues : String
  createdAt : String
  modifiedAt : String
  serviceAccountRoleArn : String
deriving DecidableEq

/-- Embedding of schema.ResourceData.GetOk on a string attribute: ok exactly when
the value differs from the zero value. -/
def getOk (s : String) : Option String := if s = "" then none else some s

/-- Embedding of schema.ResourceData.GetOk on a boolean attribute. -/
def getOkBool (b : Bool) : Option Bool := if b then some b else none

/-- Embedding of the Go HasChange on addon_version. -/
def hasChangeAddonVersion (d : ResourceData) : Bool :=
  d.oldAddonVersion != d.addonVersion

/-- Embedding of the Go HasChange on configuration_values. -/
def hasChangeConfigurationValues (d : ResourceData) : Bool :=
  d.oldConfigurationValues != d.configurationValues

/-- Embedding of the Go HasChange on service_account_role_arn. -/
def hasChangeServiceAccountRoleArn (d : ResourceData) : Bool :=
  d.oldServiceAccountRoleArn != d.serviceAccountRoleArn

/-- Embedding of d.HasChanges("addon_version", "service_account_role_arn",
"configuration_values") from resourceAddonUpdate. -/
def updHasChanges (d : ResourceData) : Bool :=
  hasChangeAddonVersion d || hasChangeServiceAccountRoleArn d ||
    hasChangeConfigurationValues d

/-- The value types.ResolveConflictsOverwrite of the remote API enum. -/
def resolveConflictsOverwrite : String := "OVERWRITE"

/-- Modelled from the spec: AddonCreateResourceID, the identifier codec encoder,
is in this repository but not in the given source file.  Per the spec it is the
deterministic concatenation of the parent identifier and the component name with
a reserved separator. -/
def AddonCreateResourceID (clusterName addonName : String) : String :=
  clusterName ++ ":" ++ addonName

/-- Splits a character list at the first separator character, if any. -/
def breakAtSep : List Char → Option (List Char × List Char)
  | [] => none
  | c :: cs =>
    if c == ':' then some ([], cs)
    else
      match breakAtSep cs with
      | none => none
      | some (a, b) => some (c :: a, b)

/-- Modelled from the spec: AddonParseResourceID, the identifier codec decoder,
is in this repository but not in the given source file.  Per the spec, decoding
fails with a malformed-identifier error when the separator is absent or a
decoded part is empty. -/
def AddonParseResourceID (id : String) : Except String (String × String) :=
  match breakAtSep id.data with
  | some (c, n) =>
    if c.isEmpty || n.isEmpty then
      Except.error ("unexpected format of ID (" ++ id ++ "), expected cluster-name:addon-name")
    else
      Except.ok (String.mk c, String.mk n)
  | none =>
    Except.error ("unexpected format of ID (" ++ id ++ "), expected cluster-name:addon-name")

/-- Modelled from the spec: tfresource.RetryWhen is in this repository but not in
the given source file.  Per the spec it repeats the call while the retryable
predicate accepts the returned error, after a backoff, bounded by an overall
budget; any other error is returned at once.  The budget is modelled as the
number of retries still allowed, the call is indexed by the attempt number, and
the result carries the index one past the last attempt made, so that when
started at attempt 0 the second component is the total number of attempts. -/
def RetryWhen {α : Type} (retryable : AwsError → Bool)
    (call : Nat → Except AwsError α) : Nat → Nat → Except AwsError α × Nat
  | 0, k => (call k, k + 1)
  | Nat.succ fuel, k =>
    match call k with
    | Except.ok a => (Except.ok a, k + 1)
    | Except.error e =>
      if retryable e then RetryWhen retryable call fuel (k + 1)
      else (Except.error e, k + 1)

/-- The retryable predicate passed to tfresource.RetryWhen by resourceAddonCreate:
retry exactly when the error is an InvalidParameterException whose message
contains CREATE_FAILED or does not exist. -/
def createRetryable (e : AwsError) : Bool :=
  if isInvalidParameterError e then
    if strContains (errMessage e) "CREATE_FAILED" || strContains (errMessage e) "does not exist" then
      true
    else
      false
  else
    false

/-- The eks.CreateAddonInput built by resourceAddonCreate.  An optional field is
none when the corresponding GetOk reported the attribute as unset; the
ResolveConflicts enum field keeps the Go zero value, the empty string, when
neither policy attribute is set. -/
structure CreateAddonInput where
  addonName : String
  clientRequestToken : String
  clusterName : String
  addonVersion : Option String
  configurationValues : Option String
  resolveConflicts : String
  serviceAccountRoleArn : Option String
deriving DecidableEq

/-- The construction of the create request from resourceAddonCreate: the token
argument is the single sdkid.UniqueId() value drawn when the request literal is
built. -/
def buildCreateInput (d : ResourceData) (token : String) : CreateAddonInput :=
  { addonName := d.addonName
    clientRequestToken := token
    clusterName := d.clusterName
    addonVersion := getOk d.addonVersion
    configurationValues := getOk d.configurationValues
    resolveConflicts :=
      match getOk d.resolveConflicts with
      | some v => v
      | none =>
        match getOk d.resolveConflictsOnCreate with
        | some v => v
        | none => ""
    serviceAccountRoleArn := getOk d.serviceAccountRoleArn }

/-- The tail of resourceAddonRead after the not-found test: the error check on
the find result, then the d.Set calls mirroring the remote record. -/
def readTail (res : Except AwsError Addon) (d : ResourceData) :
    ResourceData × List Diagnostic :=
  match res with
  | Except.error e =>
    (d, [⟨Severity.error, "reading EKS Add-On (" ++ d.id ++ "): " ++ errMessage e⟩])
  | Except.ok addon =>
    ({ d with
        addonName := addon.addonName
        addonVersion := addon.addonVersion
        arn := addon.arn
        clusterName := addon.clusterName
        configurationValues := addon.configurationValues
        createdAt := addon.createdAt
        modifiedAt := addon.modifiedAt
        serviceAccountRoleArn := addon.serviceAccountRoleArn }, [])

/-- Embedding of resourceAddonRead.  The find argument supplies the result of
FindAddonByClusterNameAndAddonName for given cluster and add-on names. -/
def resourceAddonRead (find : String → String → Except AwsError Addon)
    (d : ResourceData) : ResourceData × List Diagnostic :=
  match AddonParseResourceID d.id with
  | Except.error e => (d, [⟨Severity.error, e⟩])
  | Except.ok (clusterName, addonName) =>
    let res := find clusterName addonName
    if !d.isNewResource && isNotFoundError res then
      if !d.isNewResource then
        ({ d with id := "" }, [])
      else
        readTail res d
    else
      readTail res d

/-- The outcomes of the remote calls made by resourceAddonCreate: the result of
the k-th CreateAddon attempt on a given request, the result of the
AddonActiveWaiter, and the remote state reader used by the final read. -/
structure CreateEnv where
  createAddon : Nat → CreateAddonInput → Except AwsError Unit
  waitActive : Except AwsError Unit
  findAddon : String → String → Except AwsError Addon

/-- The observable outcome of resourceAddonCreate: the final resource data, the
returned diagnostics, and the list of CreateAddon requests issued, one entry per
attempt. -/
structure CreateResult where
  d : ResourceData
  diags : List Diagnostic
  calls : List CreateAddonInput
deriving DecidableEq

/-- The warning text appended by resourceAddonCreate when the wait for the
active status fails. -/
def addonCreateWarning : String :=
  "Running terraform apply again will remove the kubernetes add-on and attempt to create it again effectively purging previous add-on configuration"

/-- Embedding of resourceAddonCreate.  The fuel argument is the retry budget of
the modelled propagation timeout and the token argument is the single
sdkid.UniqueId() value drawn when the request is built. -/
def resourceAddonCreate (fuel : Nat) (env : CreateEnv) (d : ResourceData)
    (token : String) : CreateResult :=
  let id := AddonCreateResourceID d.clusterName d.addonName
  let input := buildCreateInput d token
  let r := RetryWhen createRetryable (fun k => env.createAddon k input) fuel 0
  let calls := List.replicate r.2 input
  match r.1 with
  | Except.error e =>
    { d := d
      diags := [⟨Severity.error, "creating EKS Add-On (" ++ id ++ "): " ++ errMessage e⟩]
      calls := calls }
  | Except.ok _ =>
    let d1 := { d with id := id }
    match env.waitActive with
    | Except.error e =>
      { d := d1
        diags := [⟨Severity.error, "waiting for EKS Add-On (" ++ id ++ ") create: " ++ errMessage e⟩,
                  ⟨Severity.warning, addonCreateWarning⟩]
        calls := calls }
    | Except.ok _ =>
      { d := (resourceAddonRead env.findAddon d1).1
        diags := (resourceAddonRead env.findAddon d1).2
        calls := calls }

/-- The conflict resolution attribute and value chosen by resourceAddonUpdate:
the legacy resolve_conflicts attribute when set, else resolve_conflicts_on_update
when set, else the Go zero values of both locals. -/
def updateConflictResolution (d : ResourceData) : String × String :=
  match getOk d.resolveConflicts with
  | some v => ("resolve_conflicts", v)
  | none =>
    match getOk d.resolveConflictsOnUpdate with
    | some v => ("resolve_conflicts_on_update", v)
    | none => ("", "")

/-- The eks.UpdateAddonInput built by resourceAddonUpdate. -/
structure UpdateAddonInput where
  addonName : String
  clientRequestToken : String
  clusterName : String
  addonVersion : Option String
  configurationValues : Option String
  resolveConflicts : String
  serviceAccountRoleArn : Option String
deriving DecidableEq

/-- The construction of the update request from resourceAddonUpdate: a field is
sent when the corresponding attribute changed, the policy value follows
updateConflictResolution, and the role ARN is sent when it changed or is
currently non-empty. -/
def buildUpdateInput (clusterName addonName : String) (d : ResourceData)
    (token : String) : UpdateAddonInput :=
  { addonName := addonName
    clientRequestToken := token
    clusterName := clusterName
    addonVersion := if hasChangeAddonVersion d then some d.addonVersion else none
    configurationValues :=
      if hasChangeConfigurationValues d then some d.configurationValues else none
    resolveConflicts := (updateConflictResolution d).2
    serviceAccountRoleArn :=
      if hasChangeServiceAccountRoleArn d || d.serviceAccountRoleArn != "" then
        some d.serviceAccountRoleArn
      else
        none }

/-- The outcomes of the remote calls made by resourceAddonUpdate: the result of
UpdateAddon on a given request (the update identifier on success), the result of
waitAddonUpdateSuccessful for a given update identifier, and the remote state
reader used by the final read. -/
structure UpdateEnv where
  updateAddon : UpdateAddonInput → Except AwsError String
  waitUpdate : String → Except AwsError Unit
  findAddon : String → String → Except AwsError Addon

/-- The observable outcome of resourceAddonUpdate: the final resource data, the
returned diagnostics, and the list of UpdateAddon requests issued. -/
structure UpdateResult where
  d : ResourceData
  diags : List Diagnostic
  calls : List UpdateAddonInput
deriving DecidableEq

/-- Embedding of resourceAddonUpdate. -/
def resourceAddonUpdate (env : UpdateEnv) (d : ResourceData) (token : String) :
    UpdateResult :=
  match AddonParseResourceID d.id with
  | Except.error e => { d := d, diags := [⟨Severity.error, e⟩], calls := [] }
  | Except.ok (clusterName, addonName) =>
    if updHasChanges d then
      let input := buildUpdateInput clusterName addonName d token
      match env.updateAddon input with
      | Except.error e =>
        { d := d
          diags := [⟨Severity.error, "updating EKS Add-On (" ++ d.id ++ "): " ++ errMessage e⟩]
          calls := [input] }
      | Except.ok updateID =>
        match env.waitUpdate updateID with
        | Except.error e =>
          if (updateConflictResolution d).2 != resolveConflictsOverwrite then
            { d := d
              diags := [⟨Severity.error,
                "waiting for EKS Add-On (" ++ d.id ++ ") update (" ++ updateID ++ "): " ++
                  errMessage e ++ ". Consider setting attribute \"" ++
                  (updateConflictResolution d).1 ++ "\" to \"" ++
                  resolveConflictsOverwrite ++ "\""⟩]
              calls := [input] }
          else
            { d := d
              diags := [⟨Severity.error,
                "waiting for EKS Add-On (" ++ d.id ++ ") update (" ++ updateID ++ "): " ++
                  errMessage e⟩]
              calls := [input] }
        | Except.ok _ =>
          { d := (resourceAddonRead env.findAddon d).1
            diags := (resourceAddonRead env.findAddon d).2
            calls := [input] }
    else
      { d := (resourceAddonRead env.findAddon d).1
        diags := (resourceAddonRead env.findAddon d).2
        calls := [] }

/-- The eks.DeleteAddonInput built by resourceAddonDelete. -/
structure DeleteAddonInput where
  addonName : String
  clusterName : String
  preserve : Bool
deriving DecidableEq

/-- The construction of the delete request from resourceAddonDelete: the
Preserve field is set only when GetOk reports the attribute. -/
def buildDeleteInput (clusterName addonName : String) (d : ResourceData) :
    DeleteAddonInput :=
  { addonName := addonName
    clusterName := clusterName
    preserve :=
      match getOkBool d.preserve with
      | some v => v
      | none => false }

/-- The outcomes of the remote calls made by resourceAddonDelete: the result of
DeleteAddon on a given request and the result of the AddonDeletedWaiter. -/
structure DeleteEnv where
  deleteAddon : DeleteAddonInput → Except AwsError Unit
  waitDeleted : Except AwsError Unit

/-- Embedding of resourceAddonDelete.  In the branch where the deleted waiter
fails, the Go source calls sdkdiag.AppendErrorf without assigning its result
back to diags, so the returned diagnostics do not carry the wait error; the
translation keeps that behaviour. -/
def resourceAddonDelete (env : DeleteEnv) (d : ResourceData) :
    ResourceData × List Diagnostic :=
  match AddonParseResourceID d.id with
  | Except.error e => (d, [⟨Severity.error, e⟩])
  | Except.ok (clusterName, addonName) =>
    let input := buildDeleteInput clusterName addonName d
    match env.deleteAddon input with
    | Except.error e =>
      (d, [⟨Severity.error, "deleting EKS Add-On (" ++ d.id ++ "): " ++ errMessage e⟩])
    | Except.ok _ =>
      match env.waitDeleted with
      | Except.error _ => (d, [])
      | Except.ok _ => (d, [])

/-! Helper lemmas shared by the claim theorems. -/

/-- Starting at attempt k, RetryWhen makes at least one attempt. -/
theorem RetryWhen_attempts_ge {α : Type} (retryable : AwsError → Bool)
    (call : Nat → Except AwsError α) :
    ∀ (fuel k : Nat), k + 1 ≤ (RetryWhen retryable call fuel k).2 := by
  intro fuel
  induction fuel with
  | zero => intro k; simp [RetryWhen]
  | succ f ih =>
    intro k
    simp only [RetryWhen]
    cases h : call k with
    | ok a => simp
    | error e =>
      by_cases hr : retryable e
      · simp only [hr, if_true]
        exact le_trans (by omega) (ih (k + 1))
      · simp [hr]

/-- The retryable predicate of resourceAddonCreate accepts exactly the
invalid-parameter errors whose message mentions CREATE_FAILED or does not
exist. -/
theorem createRetryable_eq_true (e : AwsError) :
    createRetryable e = true ↔
      isInvalidParameterError e = true ∧
        (strContains (errMessage e) "CREATE_FAILED" = true ∨
          strContains (errMessage e) "does not exist" = true) := by
  unfold createRetryable
  split_ifs with h1 h2 <;> simp_all

/-- Every branch of resourceAddonCreate reports one request per attempt made by
the retry loop, all of them the single request built before the loop. -/
theorem resourceAddonCreate_calls (fuel : Nat) (env : CreateEnv)
    (d : ResourceData) (token : String) :
    (resourceAddonCreate fuel env d token).calls =
      List.replicate
        (RetryWhen createRetryable (fun k => env.createAddon k (buildCreateInput d token)) fuel 0).2
        (buildCreateInput d token) := by
  simp only [resourceAddonCreate]
  cases hr : (RetryWhen createRetryable (fun k => env.createAddon k (buildCreateInput d token)) fuel 0).1 with
  | error e => rfl
  | ok a =>
    cases hw : env.waitActive with
    | error e => rfl
    | ok b => rfl

/-! Concrete data for the closed witness and counterexample theorems. -/

/-- A fresh resource during its first create pass. -/
def dEx : ResourceData :=
  { id := ""
    isNewResource := true
    addonName := "vpc-cni"
    clusterName := "cluster-a"
    addonVersion := "v1.2.0"
    configurationValues := ""
    resolveConflicts := ""
    resolveConflictsOnCreate := ""
    resolveConflictsOnUpdate := ""
    serviceAccountRoleArn := ""
    preserve := false
    arn := ""
    createdAt := ""
    modifiedAt := ""
    oldAddonVersion := ""
    oldConfigurationValues := ""
    oldServiceAccountRoleArn := "" }

/-- An established resource with no pending attribute change. -/
def dEst : ResourceData :=
  { id := "cluster-a:vpc-cni"
    isNewResource := false
    addonName := "vpc-cni"
    clusterName := "cluster-a"
    addonVersion := "v1.2.0"
    configurationValues := ""
    resolveConflicts := ""
    resolveConflictsOnCreate := ""
    resolveConflictsOnUpdate := ""
    serviceAccountRoleArn := ""
    preserve := false
    arn := ""
    createdAt := ""
    modifiedAt := ""
    oldAddonVersion := "v1.2.0"
    oldConfigurationValues := ""
    oldServiceAccountRoleArn := "" }

/-- A remote record matching dEx. -/
def addonEx : Addon :=
  { addonName := "vpc-cni"
    addonVersion := "v1.2.0"
    arn := "arn-of-addon"
    clusterName := "cluster-a"
    configurationValues := ""
    createdAt := "t0"
    modifiedAt := "t1"
    serviceAccountRoleArn := "" }

/-- A create environment whose remote create always fails with a
non-retryable error. -/
def envC1 : CreateEnv :=
  { createAddon := fun _ _ => Except.error (AwsError.other "boom")
    waitActive := Except.ok ()
    findAddon := fun _ _ => Except.ok addonEx }

/-- A create environment whose first create attempt fails with the retryable
invalid-parameter class and whose second attempt is accepted. -/
def envRetry : CreateEnv :=
  { createAddon := fun k _ =>
      match k with
      | 0 => Except.error (AwsError.invalidParameter "CREATE_FAILED")
      | _ + 1 => Except.ok ()
    waitActive := Except.ok ()
    findAddon := fun _ _ => Except.ok addonEx }

/-- A create environment where the create is accepted and the wait for the
active status fails. -/
def envC3 : CreateEnv :=
  { createAddon := fun _ _ => Except.ok ()
    waitActive := Except.error (AwsError.other "unexpected state")
    findAddon := fun _ _ => Except.ok addonEx }

/-! Claim theorems. -/

/-- C1: For every create operation, the remote create call is retried (within
the bounded budget) if and only if it fails with an invalid-parameter class
error whose message contains CREATE_FAILED or does not exist; any other error
from the create call fails the operation immediately, after exactly one
attempt, with the create error reported. -/
theorem create_retries_iff_invalid_parameter_failed_class
    (fuel : Nat) (env : CreateEnv) (d : ResourceData) (token : String)
    (e : AwsError) (hfuel : 1 ≤ fuel)
    (hfirst : env.createAddon 0 (buildCreateInput d token) = Except.error e) :
    (2 ≤ (resourceAddonCreate fuel env d token).calls.length ↔
      isInvalidParameterError e = true ∧
        (strContains (errMessage e) "CREATE_FAILED" = true ∨
          strContains (errMessage e) "does not exist" = true)) ∧
    (createRetryable e = false →
      (resourceAddonCreate fuel env d token).calls.length = 1 ∧
      (resourceAddonCreate fuel env d token).diags =
        [⟨Severity.error,
          "creating EKS Add-On (" ++ AddonCreateResourceID d.clusterName d.addonName ++ "): " ++
            errMessage e⟩]) := by
  obtain ⟨f, rfl⟩ : ∃ f, fuel = f + 1 := ⟨fuel - 1, by omega⟩
  have hcalls := resourceAddonCreate_calls (f + 1) env d token
  by_cases hr : createRetryable e = true
  · have hstep :
        RetryWhen createRetryable (fun k => env.createAddon k (buildCreateInput d token)) (f + 1) 0 =
          RetryWhen createRetryable (fun k => env.createAddon k (buildCreateInput d token)) f 1 := by
      simp only [RetryWhen]
      rw [hfirst]
      simp [hr]
    refine ⟨?_, ?_⟩
    · rw [hcalls, hstep, List.length_replicate]
      have h2 := RetryWhen_attempts_ge createRetryable
        (fun k => env.createAddon k (buildCreateInput d token)) f 1
      exact ⟨fun _ => (createRetryable_eq_true e).1 hr, fun _ => by omega⟩
    · intro hfalse
      rw [hfalse] at hr
      exact absurd hr (by simp)
  · have hr' : createRetryable e = false := by
      cases h : createRetryable e
      · rfl
      · exact absurd h hr
    have hstep :
        RetryWhen createRetryable (fun k => env.createAddon k (buildCreateInput d token)) (f + 1) 0 =
          (Except.error e, 1) := by
      simp only [RetryWhen]
      rw [hfirst]
      simp [hr']
    refine ⟨?_, ?_⟩
    · rw [hcalls, hstep, List.length_replicate]
      exact ⟨fun h2 => by omega, fun hclass => absurd ((createRetryable_eq_true e).2 hclass) hr⟩
    · intro _
      refine ⟨by rw [hcalls, hstep, List.length_replicate], ?_⟩
      simp only [resourceAddonCreate]
      rw [hstep]

/-- C1 witness: with a unit retry budget and a create call failing with an
error outside the retried class, the operation makes one attempt and fails at
once reporting the create error. -/
theorem create_retries_iff_witness :
    (resourceAddonCreate 1 envC1 dEx "tk").calls.length = 1 ∧
    (resourceAddonCreate 1 envC1 dEx "tk").diags =
      [⟨Severity.error,
        "creating EKS Add-On (" ++ AddonCreateResourceID dEx.clusterName dEx.addonName ++ "): " ++
          errMessage (AwsError.other "boom")⟩] :=
  (create_retries_iff_invalid_parameter_failed_class 1 envC1 dEx "tk"
    (AwsError.other "boom") (by omega) rfl).2 rfl

/-- C2 (amended): the idempotency token is generated once per create operation
when the request is built, and every attempt of the retry loop sends that same
client request token. -/
theorem create_single_token_reused_across_attempts
    (fuel : Nat) (env : CreateEnv) (d : ResourceData) (token : String) :
    ∀ inp ∈ (resourceAddonCreate fuel env d token).calls,
      inp.clientRequestToken = token := by
  intro inp hinp
  rw [resourceAddonCreate_calls] at hinp
  rw [List.eq_of_mem_replicate hinp]
  rfl

/-- C2 witness: a concrete create operation whose first attempt fails with the
retried class and is accepted on the second attempt; the request built from the
single drawn token carries that token. -/
theorem create_single_token_witness :
    (buildCreateInput dEx "tk-1").clientRequestToken = "tk-1" :=
  create_single_token_reused_across_attempts 5 envRetry dEx "tk-1"
    (buildCreateInput dEx "tk-1") (by decide)

/-- C2 counterexample: in the concrete create operation whose first attempt
fails with the retried invalid-parameter class, two attempts are made and both
send the same client request token, refuting the claim that no two attempts
within one create operation send the same token. -/
theorem create_token_not_fresh_counterexample :
    (resourceAddonCreate 5 envRetry dEx "tk-1").calls.map
        (fun inp => inp.clientRequestToken) = ["tk-1", "tk-1"] := by
  decide

/-- C3: when the remote create call is accepted and the wait for the active
status fails, the composite identifier is kept as the stored identity and the
operation returns the wait error together with the warning that re-running the
convergence pass will delete and recreate the add-on. -/
theorem create_wait_failure_keeps_id_and_warns
    (fuel : Nat) (env : CreateEnv) (d : ResourceData) (token : String)
    (e : AwsError) (n : Nat)
    (hcreate : RetryWhen createRetryable
        (fun k => env.createAddon k (buildCreateInput d token)) fuel 0 =
      (Except.ok (), n))
    (hwait : env.waitActive = Except.error e) :
    (resourceAddonCreate fuel env d token).d.id =
      AddonCreateResourceID d.clusterName d.addonName ∧
    (resourceAddonCreate fuel env d token).diags =
      [⟨Severity.error,
        "waiting for EKS Add-On (" ++ AddonCreateResourceID d.clusterName d.addonName ++
          ") create: " ++ errMessage e⟩,
       ⟨Severity.warning, addonCreateWarning⟩] := by
  refine ⟨?_, ?_⟩ <;>
  · simp only [resourceAddonCreate]
    rw [hcreate, hwait]

/-- C3 witness: a concrete create operation whose create call is accepted at
once and whose wait for the active status fails; the identifier stays stored
and the error and warning are both returned. -/
theorem create_wait_failure_witness :
    (resourceAddonCreate 3 envC3 dEx "tk").d.id =
      AddonCreateResourceID dEx.clusterName dEx.addonName ∧
    (resourceAddonCreate 3 envC3 dEx "tk").diags =
      [⟨Severity.error,
        "waiting for EKS Add-On (" ++ AddonCreateResourceID dEx.clusterName dEx.addonName ++
          ") create: " ++ errMessage (AwsError.other "unexpected state")⟩,
       ⟨Severity.warning, addonCreateWarning⟩] :=
  create_wait_failure_keeps_id_and_warns 3 envC3 dEx "tk"
    (AwsError.other "unexpected state") 1 rfl rfl

/-- A delete environment where the remote delete is accepted and the wait for
the deleted status fails. -/
def envC4 : DeleteEnv :=
  { deleteAddon := fun _ => Except.ok ()
    waitDeleted := Except.error (AwsError.other "timeout waiting for state") }

/-- C4 evaluation at the failing input: when the remote delete call is accepted
and the wait for the deleted status fails, the operation returns empty
diagnostics — the wait failure is dropped rather than surfaced, because the
source discards the result of the diagnostics append. -/
theorem delete_wait_error_not_surfaced :
    resourceAddonDelete envC4 dEst = (dEst, []) := by
  decide

/-- C5: when the remote reader reports not-found on a read of an established
record, the operation returns no diagnostics and clears the identifier, and
when the record is newly created in this pass the same not-found is returned
as an error. -/
theorem read_not_found_established_vs_new
    (find : String → String → Except AwsError Addon) (d : ResourceData)
    (m c n : String)
    (hid : AddonParseResourceID d.id = Except.ok (c, n))
    (hfind : find c n = Except.error (AwsError.resourceNotFound m)) :
    (d.isNewResource = false →
      resourceAddonRead find d = ({ d with id := "" }, [])) ∧
    (d.isNewResource = true →
      resourceAddonRead find d =
        (d, [⟨Severity.error,
          "reading EKS Add-On (" ++ d.id ++ "): " ++
            errMessage (AwsError.resourceNotFound m)⟩])) := by
  refine ⟨fun hnew => ?_, fun hnew => ?_⟩ <;>
  · simp only [resourceAddonRead]
    rw [hid]
    simp only [hfind, hnew, readTail, isNotFoundError, errMessage]
    simp

/-- C5 witness: reading an established record whose remote lookup reports
not-found succeeds with no diagnostics and drops the identifier. -/
theorem read_not_found_witness :
    resourceAddonRead (fun _ _ => Except.error (AwsError.resourceNotFound "no such addon"))
      dEst = ({ dEst with id := "" }, []) :=
  (read_not_found_established_vs_new
    (fun _ _ => Except.error (AwsError.resourceNotFound "no such addon"))
    dEst "no such addon" "cluster-a" "vpc-cni" rfl rfl).1 rfl

/-- The conflict policy the spec says is sent: the legacy field when set, else
the operation-specific split field when set, else unset.  Written from the
words of the spec, to be compared with the request fields built from the
source. -/
def specEffectivePolicy (legacy split : String) : String :=
  if legacy ≠ "" then legacy else if split ≠ "" then split else ""

/-- C6: both the create request and the update request carry exactly the
conflict policy of the spec precedence — legacy resolve_conflicts first, then
the operation-specific split field, else unset. -/
theorem conflict_policy_precedence_legacy_then_split
    (clusterName addonName : String) (d : ResourceData) (token : String) :
    (buildCreateInput d token).resolveConflicts =
      specEffectivePolicy d.resolveConflicts d.resolveConflictsOnCreate ∧
    (buildUpdateInput clusterName addonName d token).resolveConflicts =
      specEffectivePolicy d.resolveConflicts d.resolveConflictsOnUpdate := by
  refine ⟨?_, ?_⟩ <;>
  · simp only [buildCreateInput, buildUpdateInput, updateConflictResolution,
      specEffectivePolicy, getOk]
    by_cases h1 : d.resolveConflicts = "" <;>
      by_cases h2 : d.resolveConflictsOnCreate = "" <;>
      by_cases h3 : d.resolveConflictsOnUpdate = "" <;>
      simp [h1, h2, h3]

/-- When the identifier parses, resourceAddonUpdate issues exactly one update
request, the one built from the parsed names, when a tracked attribute changed,
and none otherwise. -/
theorem resourceAddonUpdate_calls (env : UpdateEnv) (d : ResourceData)
    (token c n : String)
    (hid : AddonParseResourceID d.id = Except.ok (c, n)) :
    (resourceAddonUpdate env d token).calls =
      if updHasChanges d then [buildUpdateInput c n d token] else [] := by
  simp only [resourceAddonUpdate]
  rw [hid]
  by_cases hch : updHasChanges d = true
  · simp only [hch, if_true]
    repeat' split
    all_goals rfl
  · simp only [Bool.not_eq_true] at hch
    simp [hch]

/-- An update environment whose remote update is accepted and whose
sub-operation wait succeeds. -/
def envUpd : UpdateEnv :=
  { updateAddon := fun _ => Except.ok "uid-1"
    waitUpdate := fun _ => Except.ok ()
    findAddon := fun _ _ => Except.ok addonEx }

/-- An established record whose only pending change is setting the service
account role ARN. -/
def dSarOnly : ResourceData := { dEst with serviceAccountRoleArn := "arn-role-x" }

/-- C7: every update request issued by an update operation carries the service
account role ARN whenever that field is currently non-empty or differs from the
last-known state. -/
theorem update_resends_service_account_role_arn
    (env : UpdateEnv) (d : ResourceData) (token : String)
    (h : d.serviceAccountRoleArn ≠ "" ∨
      d.oldServiceAccountRoleArn ≠ d.serviceAccountRoleArn) :
    ∀ inp ∈ (resourceAddonUpdate env d token).calls,
      inp.serviceAccountRoleArn = some d.serviceAccountRoleArn := by
  intro inp hinp
  have hsar : (hasChangeServiceAccountRoleArn d || d.serviceAccountRoleArn != "") = true := by
    rcases h with h | h
    · simp [bne_iff_ne, h]
    · simp [hasChangeServiceAccountRoleArn, bne_iff_ne, h]
  cases hp : AddonParseResourceID d.id with
  | error e =>
    simp only [resourceAddonUpdate, hp] at hinp
    simp at hinp
  | ok cn =>
    obtain ⟨c, n⟩ := cn
    rw [resourceAddonUpdate_calls env d token c n hp] at hinp
    by_cases hch : updHasChanges d = true
    · rw [if_pos hch] at hinp
      simp only [List.mem_singleton] at hinp
      rw [hinp]
      simp only [buildUpdateInput, hsar, if_true]
    · rw [if_neg hch] at hinp
      simp at hinp

/-- C7 witness: an update whose only differing field is the service account
role ARN still sends that field in the issued request. -/
theorem update_resends_sar_witness :
    (buildUpdateInput "cluster-a" "vpc-cni" dSarOnly "tk").serviceAccountRoleArn =
      some dSarOnly.serviceAccountRoleArn :=
  update_resends_service_account_role_arn envUpd dSarOnly "tk"
    (Or.inl (by decide))
    (buildUpdateInput "cluster-a" "vpc-cni" dSarOnly "tk") (by decide)

/-- C8: when none of version, configuration payload or delegated identity
differ from the last-known state, the update operation issues no remote update
request and its outcome is exactly that of the refresh read. -/
theorem update_noop_when_no_field_differs
    (env : UpdateEnv) (d : ResourceData) (token c n : String)
    (hid : AddonParseResourceID d.id = Except.ok (c, n))
    (h1 : d.oldAddonVersion = d.addonVersion)
    (h2 : d.oldServiceAccountRoleArn = d.serviceAccountRoleArn)
    (h3 : d.oldConfigurationValues = d.configurationValues) :
    (resourceAddonUpdate env d token).calls = [] ∧
    (resourceAddonUpdate env d token).d = (resourceAddonRead env.findAddon d).1 ∧
    (resourceAddonUpdate env d token).diags = (resourceAddonRead env.findAddon d).2 := by
  have hch : updHasChanges d = false := by
    simp [updHasChanges, hasChangeAddonVersion, hasChangeServiceAccountRoleArn,
      hasChangeConfigurationValues, h1, h2, h3]
  refine ⟨?_, ?_, ?_⟩ <;>
  · simp only [resourceAddonUpdate]
    rw [hid]
    simp [hch]

/-- C8 witness: an update of an established record with no pending change
issues no remote update and returns the refresh read outcome. -/
theorem update_noop_witness :
    (resourceAddonUpdate envUpd dEst "tk").calls = [] ∧
    (resourceAddonUpdate envUpd dEst "tk").d = (resourceAddonRead envUpd.findAddon dEst).1 ∧
    (resourceAddonUpdate envUpd dEst "tk").diags = (resourceAddonRead envUpd.findAddon dEst).2 :=
  update_noop_when_no_field_differs envUpd dEst "tk" "cluster-a" "vpc-cni"
    rfl rfl rfl rfl

/-- C9: when the wait on the update sub-operation fails, the operation fails
after its single update request; when the effective conflict policy is not
overwrite the returned error names the chosen policy attribute and the
overwrite value, and when it is overwrite the raw wait failure is returned. -/
theorem update_wait_failure_remediation
    (env : UpdateEnv) (d : ResourceData) (token c n uid : String) (e : AwsError)
    (hid : AddonParseResourceID d.id = Except.ok (c, n))
    (hch : updHasChanges d = true)
    (hupd : env.updateAddon (buildUpdateInput c n d token) = Except.ok uid)
    (hwait : env.waitUpdate uid = Except.error e) :
    (resourceAddonUpdate env d token).calls.length = 1 ∧
    ((updateConflictResolution d).2 ≠ resolveConflictsOverwrite →
      (resourceAddonUpdate env d token).diags =
        [⟨Severity.error,
          "waiting for EKS Add-On (" ++ d.id ++ ") update (" ++ uid ++ "): " ++
            errMessage e ++ ". Consider setting attribute \"" ++
            (updateConflictResolution d).1 ++ "\" to \"" ++
            resolveConflictsOverwrite ++ "\""⟩]) ∧
    ((updateConflictResolution d).2 = resolveConflictsOverwrite →
      (resourceAddonUpdate env d token).diags =
        [⟨Severity.error,
          "waiting for EKS Add-On (" ++ d.id ++ ") update (" ++ uid ++ "): " ++
            errMessage e⟩]) := by
  refine ⟨?_, ?_, ?_⟩
  · simp only [resourceAddonUpdate]
    rw [hid]
    simp only [hch, if_true, hupd, hwait]
    split <;> rfl
  · intro hne
    simp only [resourceAddonUpdate]
    rw [hid]
    simp only [hch, if_true, hupd, hwait]
    rw [if_pos (bne_iff_ne.mpr hne)]
  · intro heq
    simp only [resourceAddonUpdate]
    rw [hid]
    simp only [hch, if_true, hupd, hwait]
    rw [if_neg (by simp [heq])]

/-- An update environment whose remote update is accepted and whose
sub-operation wait fails. -/
def envC9 : UpdateEnv :=
  { updateAddon := fun _ => Except.ok "uid-1"
    waitUpdate := fun _ => Except.error (AwsError.other "update failed")
    findAddon := fun _ _ => Except.ok addonEx }

/-- An established record with a pending version change and the split update
policy set to NONE. -/
def dC9 : ResourceData :=
  { dEst with addonVersion := "v1.3.0", resolveConflictsOnUpdate := "NONE" }

/-- C9 witness: a failed update wait with effective policy NONE returns the
remediation text naming resolve_conflicts_on_update and the overwrite value,
after exactly one update request. -/
theorem update_wait_failure_witness :
    (resourceAddonUpdate envC9 dC9 "tk").calls.length = 1 ∧
    (resourceAddonUpdate envC9 dC9 "tk").diags =
      [⟨Severity.error,
        "waiting for EKS Add-On (" ++ dC9.id ++ ") update (" ++ "uid-1" ++ "): " ++
          errMessage (AwsError.other "update failed") ++
          ". Consider setting attribute \"" ++ (updateConflictResolution dC9).1 ++
          "\" to \"" ++ resolveConflictsOverwrite ++ "\""⟩] :=
  ⟨(update_wait_failure_remediation envC9 dC9 "tk" "cluster-a" "vpc-cni" "uid-1"
      (AwsError.other "update failed") rfl rfl rfl rfl).1,
   (update_wait_failure_remediation envC9 dC9 "tk" "cluster-a" "vpc-cni" "uid-1"
      (AwsError.other "update failed") rfl rfl rfl rfl).2.1 (by decide)⟩

/-- C10: any error of the remote delete call fails the delete operation with an
error diagnostic and leaves the resource data, its tracked identifier included,
unchanged. -/
theorem delete_call_error_fails_and_keeps_id
    (env : DeleteEnv) (d : ResourceData) (c n : String) (e : AwsError)
    (hid : AddonParseResourceID d.id = Except.ok (c, n))
    (hdel : env.deleteAddon (buildDeleteInput c n d) = Except.error e) :
    resourceAddonDelete env d =
      (d, [⟨Severity.error,
        "deleting EKS Add-On (" ++ d.id ++ "): " ++ errMessage e⟩]) := by
  simp only [resourceAddonDelete]
  rw [hid]
  simp only [hdel]

/-- A delete environment whose remote delete call reports that the add-on does
not exist. -/
def envC10 : DeleteEnv :=
  { deleteAddon := fun _ => Except.error (AwsError.resourceNotFound "no such addon")
    waitDeleted := Except.ok () }

/-- C10 witness: a delete whose remote call reports not-found fails the
operation with an error and keeps the tracked identifier. -/
theorem delete_error_witness :
    resourceAddonDelete envC10 dEst =
      (dEst, [⟨Severity.error,
        "deleting EKS Add-On (" ++ dEst.id ++ "): " ++
          errMessage (AwsError.resourceNotFound "no such addon")⟩]) :=
  delete_call_error_fails_and_keeps_id envC10 dEst "cluster-a" "vpc-cni"
    (AwsError.resourceNotFound "no such addon") rfl rfl

end EksAddon
